import Mathlib

/-!
Shallow embedding of the reply-parsing and call-wrapper logic of
`ai_content_generator.py` (class `AIContentGenerator`) and
`feedback_analyzer.py` (class `FeedbackAnalyzer`).

Python string primitives are modelled over `List Char` / `String`:
`str.split(sep)` keeps empty pieces, `str.split()` (no argument) tokenizes
on whitespace runs and drops empties, `str.strip()` trims whitespace on both
ends, `str.replace(old, new)` replaces every non-overlapping occurrence of
`old` left to right, `str.startswith(p)` checks a literal prefix, and
`sub in s` tests for a contiguous substring.  The external
chat-completion call is modelled as an `Except String String` argument
(`Except.ok reply` for a successful call returning `reply`,
`Except.error e` for a raised exception whose message is `e`), and
`datetime.now().isoformat()` as an opaque `now : String` argument.
-/

/-- Python's whitespace class for `str.strip` / `str.split` (ASCII range:
space, tab, newline, carriage return, vertical tab, form feed). -/
def pyIsSpace (c : Char) : Bool :=
  c == ' ' || c == '\t' || c == '\n' || c == '\r' || c == '\x0b' || c == '\x0c'

/-- Split a character list at every occurrence of the separator character,
keeping empty pieces: the `List Char` core of Python's `s.split(sep)` for a
one-character separator; `acc` holds the current piece reversed. -/
def splitChAux (sep : Char) : List Char → List Char → List (List Char)
  | [], acc => [acc.reverse]
  | c :: cs, acc =>
      if c == sep then acc.reverse :: splitChAux sep cs []
      else splitChAux sep cs (c :: acc)

/-- Python `s.split('\n')` (the blog parser's `content.split('\n')`). -/
def pyLines (s : String) : List String :=
  (splitChAux '\n' s.data []).map String.mk

/-- Fuel-driven core of Python `s.split(sep)` for a multi-character
separator; fuel is consumed one unit per character so `fuel = l.length`
always suffices, and the fuel-exhausted arm is unreachable at that fuel. -/
def pySplitOnAux (sep : List Char) : Nat → List Char → List Char → List (List Char)
  | _, [], acc => [acc.reverse]
  | 0, l, acc => [acc.reverse ++ l]
  | fuel + 1, c :: cs, acc =>
      if sep.isPrefixOf (c :: cs) then
        acc.reverse :: pySplitOnAux sep fuel (cs.drop (sep.length - 1)) []
      else
        pySplitOnAux sep fuel cs (c :: acc)

/-- Python `s.split(sep)` for a non-empty separator string: splits at each
non-overlapping occurrence of `sep`, left to right, keeping empty pieces
(`"".split("---") == [""]`, `"------".split("---") == ["", "", ""]`). -/
def pySplitOn (s sep : String) : List String :=
  (pySplitOnAux sep.data s.data.length s.data []).map String.mk

/-- Fuel-driven core of Python `s.replace(old, new)`: replaces every
non-overlapping occurrence of `pat`, scanning left to right.  Fuel is
consumed one unit per character, so `fuel = l.length` always suffices. -/
def pyReplaceAux (pat rep : List Char) : Nat → List Char → List Char
  | _, [] => []
  | 0, l => l
  | fuel + 1, c :: cs =>
      if pat.isPrefixOf (c :: cs) then
        rep ++ pyReplaceAux pat rep fuel (cs.drop (pat.length - 1))
      else
        c :: pyReplaceAux pat rep fuel cs

/-- Python `s.replace(old, new)` for a non-empty `old`. -/
def pyReplace (s old rep : String) : String :=
  ⟨pyReplaceAux old.data rep.data s.data.length s.data⟩

/-- Python `s.strip()` on a character list. -/
def pyStripList (l : List Char) : List Char :=
  ((l.dropWhile pyIsSpace).reverse.dropWhile pyIsSpace).reverse

/-- Python `s.strip()`: trim whitespace from both ends. -/
def pyStrip (s : String) : String :=
  ⟨pyStripList s.data⟩

/-- Python `s.startswith(p)`. -/
def pyStartsWith (s p : String) : Bool :=
  p.data.isPrefixOf s.data

/-- Contiguous-substring test on character lists: `pat` occurs in `l` iff it
is a literal prefix of some suffix of `l` (the core of Python's `in`). -/
def listContains (pat : List Char) : List Char → Bool
  | [] => pat.isEmpty
  | c :: cs => pat.isPrefixOf (c :: cs) || listContains pat cs

/-- Python's substring containment `sub in s`. -/
def pyContainsSub (s sub : String) : Bool :=
  listContains sub.data s.data

/-- Whitespace tokenizer core: split at every whitespace character, keeping
empty pieces; `acc` holds the current token reversed. -/
def wsTokensAux : List Char → List Char → List (List Char)
  | [], acc => [acc.reverse]
  | c :: cs, acc =>
      if pyIsSpace c then acc.reverse :: wsTokensAux cs []
      else wsTokensAux cs (c :: acc)

/-- Python `s.split()` (no argument): maximal non-whitespace runs, empties
dropped. -/
def pySplitWs (s : String) : List (List Char) :=
  (wsTokensAux s.data []).filter (fun w => !w.isEmpty)

/-- `len(s.split())`: the number of whitespace-delimited tokens of `s`. -/
def countWords (s : String) : Nat :=
  (pySplitWs s).length

/-- The field-extraction idiom shared by both parsers
(`line.replace(marker, "").strip()` in `generate_blog_post` lines 76 and 81
and `generate_content_calendar` lines 159-165): remove every occurrence of
the marker from the line, then trim. -/
def extractField (marker line : String) : String :=
  pyStrip (pyReplace line marker "")

/-- Modelled from the spec: the spec's stated extraction rule, "extract
everything after the marker (trimmed)" — drop the marker-length prefix of
the line and trim the remainder.  Kept separate from `extractField` (the
source's rule) so the two can be compared. -/
def specAfterMarker (marker line : String) : String :=
  pyStrip ⟨line.data.drop marker.data.length⟩

/-- Parse state of `generate_blog_post`'s reply loop: the `title`, `body`,
`tags` accumulators and `current_section` (called `sect` here). -/
structure BlogParseState where
  title : String
  body : String
  tags : String
  sect : String
  deriving DecidableEq, Repr

/-- Initial parse state (`title = body = tags = current_section = ""`). -/
def blogInit : BlogParseState :=
  { title := "", body := "", tags := "", sect := "" }

/-- One iteration of `generate_blog_post`'s `for line in lines` loop
(source lines 74-84). -/
def blogStep (st : BlogParseState) (line : String) : BlogParseState :=
  if pyStartsWith line "TITLE:" then
    { st with title := extractField "TITLE:" line, sect := "title" }
  else if pyStartsWith line "CONTENT:" then
    { st with sect := "content" }
  else if pyStartsWith line "TAGS:" then
    { st with tags := extractField "TAGS:" line, sect := "tags" }
  else if st.sect = "content" ∧ pyStrip line ≠ "" then
    { st with body := st.body ++ line ++ "\n" }
  else
    st

/-- The whole reply-parsing loop of `generate_blog_post`. -/
def blogParse (reply : String) : BlogParseState :=
  (pyLines reply).foldl blogStep blogInit

/-- The tags comprehension
`[tag.strip() for tag in tags.split(",") if tag.strip()]` (source line 91). -/
def parseTags (tags : String) : List String :=
  (pySplitOn tags ",").filterMap fun tag =>
    if pyStrip tag = "" then none else some (pyStrip tag)

/-- Result record of `generate_blog_post`.  The Python function returns a
dict whose key set differs between the success and the error path, so the
fields absent on one path are `Option`s. -/
structure BlogPostResult where
  title : Option String
  content : Option String
  tags : Option (List String)
  topic : Option String
  target_audience : Option String
  word_count : Option Nat
  generated_at : String
  status : String
  error : Option String
  deriving DecidableEq, Repr

/-- `generate_blog_post` from the external call onward (source lines 49-104):
on a successful call, parse the reply and build the success record; on an
exception, build the error record.  `call` is the outcome of
`openai.ChatCompletion.create`, `now` the timestamp both paths record. -/
def generate_blog_post (call : Except String String)
    (topic target_audience : String) (word_count : Nat) (now : String) :
    BlogPostResult :=
  match call with
  | Except.error e =>
      { title := none, content := none, tags := none, topic := none,
        target_audience := none, word_count := none,
        generated_at := now, status := "error", error := some e }
  | Except.ok content =>
      let st := blogParse content
      let full_content := st.title ++ "\n" ++ st.body
      { title := some st.title,
        content := some (pyStrip st.body),
        tags := some (parseTags st.tags),
        topic := some topic,
        target_audience := some target_audience,
        word_count := some (countWords full_content),
        generated_at := now, status := "success", error := none }

/-- Generation parameters of one chat-completion request. -/
structure ChatParams where
  model : String
  max_tokens : Nat
  temperature : ℚ
  deriving DecidableEq, Repr

/-- The parameters `generate_blog_post` passes to the external call (source
lines 53-62): `estimated_tokens = int(word_count * 1.5)`, which for a
non-negative integer `word_count` is exactly `3 * word_count / 2` in
truncating integer division (the float product is exact), and
`temperature = 0.7`. -/
def blogPostParams (word_count : Nat) : ChatParams :=
  { model := "gpt-3.5-turbo",
    max_tokens := 3 * word_count / 2,
    temperature := 7 / 10 }

/-- One content idea of `generate_content_calendar`.  The Python code builds
a dict starting from `{"generated_at": ...}` and adds each field when its
marker line is seen, so every field except the timestamp is an `Option`. -/
structure ContentIdea where
  generated_at : String
  title : Option String
  description : Option String
  audience : Option String
  level : Option String
  deriving DecidableEq, Repr

/-- One iteration of the calendar parser's `for line in lines` loop
(source lines 157-165). -/
def ideaStep (idea : ContentIdea) (line : String) : ContentIdea :=
  if pyStartsWith line "Title:" then
    { idea with title := some (extractField "Title:" line) }
  else if pyStartsWith line "Description:" then
    { idea with description := some (extractField "Description:" line) }
  else if pyStartsWith line "Audience:" then
    { idea with audience := some (extractField "Audience:" line) }
  else if pyStartsWith line "Level:" then
    { idea with level := some (extractField "Level:" line) }
  else
    idea

/-- The dict the calendar parser seeds each candidate segment with
(source line 155): only the timestamp key is present. -/
def ideaInit (now : String) : ContentIdea :=
  { generated_at := now, title := none, description := none,
    audience := none, level := none }

/-- Parsing of one `---`-delimited segment that passed the candidate check
(source lines 154-168): split the stripped segment into lines, extract the
fields, and keep the record only if a title was extracted
(`if 'title' in idea`). -/
def parseSegment (now seg : String) : Option ContentIdea :=
  if ((pyLines (pyStrip seg)).foldl ideaStep (ideaInit now)).title.isSome then
    some ((pyLines (pyStrip seg)).foldl ideaStep (ideaInit now))
  else
    none

/-- What one segment contributes to the ideas list (source lines 152-168):
segments lacking the substring `IDEA` or the substring `Title:` are skipped
outright, the rest go through `parseSegment`. -/
def segContribution (now seg : String) : Option ContentIdea :=
  if pyContainsSub seg "IDEA" && pyContainsSub seg "Title:" then
    parseSegment now seg
  else
    none

/-- The whole reply-parsing loop of `generate_content_calendar`
(source lines 148-168): split on `---` and collect the contributions. -/
def calendarIdeas (now reply : String) : List ContentIdea :=
  (pySplitOn reply "---").filterMap (segContribution now)

/-- Result record of `generate_content_calendar`; as with `BlogPostResult`,
fields present only on one path are `Option`s. -/
structure CalendarResult where
  niche : Option String
  total_ideas : Option Nat
  ideas : Option (List ContentIdea)
  generated_at : String
  status : String
  error : Option String
  deriving DecidableEq, Repr

/-- `generate_content_calendar` from the external call onward (source lines
136-183).  `num_posts` only shapes the prompt, never the parse. -/
def generate_content_calendar (call : Except String String)
    (niche : String) (num_posts : Nat) (now : String) : CalendarResult :=
  match call with
  | Except.error e =>
      { niche := none, total_ideas := none, ideas := none,
        generated_at := now, status := "error", error := some e }
  | Except.ok content =>
      let ideas := calendarIdeas now content
      { niche := some niche,
        total_ideas := some ideas.length,
        ideas := some ideas,
        generated_at := now, status := "success", error := none }

/-- `FeedbackAnalyzer.analyze_sentiment` (feedback_analyzer.py lines 10-26):
on success, the trimmed reply; on an exception `e`, the plain string
`f"Error: {e}"`. -/
def analyze_sentiment (call : Except String String) : String :=
  match call with
  | Except.ok reply => pyStrip reply
  | Except.error e => "Error: " ++ e

/-- `FeedbackAnalyzer.identify_key_themes` (feedback_analyzer.py lines
28-44): the feedback list only shapes the prompt; the result is the trimmed
reply, or `f"Error: {e}"` on an exception. -/
def identify_key_themes (feedback_list : List String)
    (call : Except String String) : String :=
  match call with
  | Except.ok reply => pyStrip reply
  | Except.error e => "Error: " ++ e

/-! ### Helper lemmas -/

theorem strAppendEmpty (s : String) : s ++ "" = s :=
  String.ext (by simp [String.data_append, show "".data = ([] : List Char) from rfl])

theorem strAppendAssoc (a b c : String) : a ++ b ++ c = a ++ (b ++ c) :=
  String.ext (by simp [String.data_append])

theorem blogStep_title_of_not_title (st : BlogParseState) (l : String)
    (h : pyStartsWith l "TITLE:" = false) :
    (blogStep st l).title = st.title := by
  unfold blogStep
  split
  · simp_all
  split
  · rfl
  split
  · rfl
  split
  · rfl
  · rfl

theorem blogStep_tags_of_not_tags (st : BlogParseState) (l : String)
    (h : pyStartsWith l "TAGS:" = false) :
    (blogStep st l).tags = st.tags := by
  unfold blogStep
  split
  · rfl
  split
  · rfl
  split
  · simp_all
  split
  · rfl
  · rfl

theorem foldl_title_of_no_title (ls : List String) :
    ∀ st : BlogParseState, (∀ l ∈ ls, pyStartsWith l "TITLE:" = false) →
      (ls.foldl blogStep st).title = st.title := by
  induction ls with
  | nil => intro st _; rfl
  | cons l ls ih =>
      intro st h
      rw [List.foldl_cons, ih _ (fun x hx => h x (List.mem_cons_of_mem _ hx)),
        blogStep_title_of_not_title st l (h l (List.mem_cons_self _ _))]

theorem foldl_tags_of_no_tags (ls : List String) :
    ∀ st : BlogParseState, (∀ l ∈ ls, pyStartsWith l "TAGS:" = false) →
      (ls.foldl blogStep st).tags = st.tags := by
  induction ls with
  | nil => intro st _; rfl
  | cons l ls ih =>
      intro st h
      rw [List.foldl_cons, ih _ (fun x hx => h x (List.mem_cons_of_mem _ hx)),
        blogStep_tags_of_not_tags st l (h l (List.mem_cons_self _ _))]

theorem blogStep_body_cases (st : BlogParseState) (l : String) :
    (blogStep st l).body = st.body ∨
      (blogStep st l).body = st.body ++ (l ++ "\n") := by
  unfold blogStep
  split
  · exact Or.inl rfl
  split
  · exact Or.inl rfl
  split
  · exact Or.inl rfl
  split
  · exact Or.inr (strAppendAssoc st.body l "\n")
  · exact Or.inl rfl

theorem foldl_body_extends (ls : List String) :
    ∀ st : BlogParseState, ∃ t, (ls.foldl blogStep st).body = st.body ++ t := by
  induction ls with
  | nil => exact fun st => ⟨"", (strAppendEmpty st.body).symm⟩
  | cons l ls ih =>
      intro st
      rw [List.foldl_cons]
      obtain ⟨t, ht⟩ := ih (blogStep st l)
      rcases blogStep_body_cases st l with hb | hb
      · exact ⟨t, by rw [ht, hb]⟩
      · exact ⟨l ++ "\n" ++ t, by
          rw [ht, hb, strAppendAssoc st.body (l ++ "\n") t]⟩

theorem blogStep_eq_self (st : BlogParseState) (l : String)
    (h1 : pyStartsWith l "TITLE:" = false)
    (h2 : pyStartsWith l "CONTENT:" = false)
    (h3 : pyStartsWith l "TAGS:" = false)
    (h4 : st.sect ≠ "content") :
    blogStep st l = st := by
  unfold blogStep
  split
  · simp_all
  split
  · simp_all
  split
  · simp_all
  split
  · next h => exact absurd h.1 h4
  · rfl

theorem foldl_eq_of_no_markers (ls : List String) :
    ∀ st : BlogParseState,
      (∀ l ∈ ls, pyStartsWith l "TITLE:" = false ∧
        pyStartsWith l "CONTENT:" = false ∧ pyStartsWith l "TAGS:" = false) →
      st.sect ≠ "content" → ls.foldl blogStep st = st := by
  induction ls with
  | nil => intro st _ _; rfl
  | cons l ls ih =>
      intro st h hs
      obtain ⟨h1, h2, h3⟩ := h l (List.mem_cons_self _ _)
      rw [List.foldl_cons, blogStep_eq_self st l h1 h2 h3 hs]
      exact ih st (fun x hx => h x (List.mem_cons_of_mem _ hx)) hs

theorem wsTokensAux_append_of_space (c : Char) (hc : pyIsSpace c = true)
    (xs : List Char) :
    ∀ (ys acc : List Char),
      wsTokensAux (xs ++ c :: ys) acc = wsTokensAux xs acc ++ wsTokensAux ys [] := by
  induction xs with
  | nil => intro ys acc; simp [wsTokensAux, hc]
  | cons x xs ih =>
      intro ys acc
      simp only [List.cons_append, wsTokensAux]
      by_cases hx : pyIsSpace x
      · simp [hx, ih]
      · simp [hx, ih]

theorem countWords_append_newline (a b : String) :
    countWords (a ++ "\n" ++ b) = countWords a + countWords b := by
  unfold countWords pySplitWs
  have hdata : (a ++ "\n" ++ b).data = a.data ++ '\n' :: b.data := by
    simp [String.data_append, show "\n".data = ['\n'] from rfl]
  rw [hdata, wsTokensAux_append_of_space '\n' (by decide) a.data b.data [],
    List.filter_append, List.length_append]

theorem isPrefixOf_append_self (pat rest : List Char) :
    pat.isPrefixOf (pat ++ rest) = true := by
  induction pat with
  | nil => simp [List.isPrefixOf]
  | cons c cs ih => simp [List.isPrefixOf, ih]

theorem pyReplaceAux_of_not_contains (pat : List Char) :
    ∀ (fuel : Nat) (l : List Char), l.length ≤ fuel →
      listContains pat l = false → pyReplaceAux pat [] fuel l = l := by
  intro fuel
  induction fuel with
  | zero =>
      intro l hl _
      cases l with
      | nil => rfl
      | cons c cs => simp at hl
  | succ fuel ih =>
      intro l hl hc
      cases l with
      | nil => rfl
      | cons c cs =>
          rw [listContains, Bool.or_eq_false_iff] at hc
          rw [pyReplaceAux, if_neg (by simp [hc.1])]
          rw [List.length_cons, Nat.succ_le_succ_iff] at hl
          rw [ih cs hl hc.2]

theorem pyReplaceAux_strip_marker (pat rest : List Char) (hne : pat ≠ [])
    (hc : listContains pat rest = false) :
    pyReplaceAux pat [] (pat ++ rest).length (pat ++ rest) = rest := by
  cases pat with
  | nil => exact absurd rfl hne
  | cons p ps =>
      show pyReplaceAux (p :: ps) [] ((ps ++ rest).length + 1) (p :: (ps ++ rest)) = rest
      have hpre : (p :: ps).isPrefixOf (p :: (ps ++ rest)) = true := by
        have h := isPrefixOf_append_self (p :: ps) rest
        simp only [List.cons_append] at h
        exact h
      rw [pyReplaceAux, if_pos hpre]
      have hdrop : (ps ++ rest).drop ((p :: ps).length - 1) = rest := by
        simp [List.drop_left]
      rw [hdrop, List.nil_append]
      exact pyReplaceAux_of_not_contains (p :: ps) (ps ++ rest).length rest
        (by simp) hc

theorem startsWith_content_not_title (l : String)
    (h : pyStartsWith l "CONTENT:" = true) :
    pyStartsWith l "TITLE:" = false := by
  unfold pyStartsWith at h ⊢
  obtain ⟨data⟩ := l
  cases data with
  | nil => exact absurd h (by decide)
  | cons c cs =>
      simp only [show "CONTENT:".data = 'C' :: "ONTENT:".data from rfl,
        List.isPrefixOf, Bool.and_eq_true, beq_iff_eq] at h
      obtain ⟨hc, -⟩ := h
      subst hc
      simp [show "TITLE:".data = 'T' :: "ITLE:".data from rfl, List.isPrefixOf,
        (by decide : ('T' == 'C') = false)]

theorem startsWith_tags_elim (l : String)
    (h : pyStartsWith l "TAGS:" = true) :
    pyStartsWith l "TITLE:" = false ∧ pyStartsWith l "CONTENT:" = false := by
  unfold pyStartsWith at h ⊢
  obtain ⟨data⟩ := l
  cases data with
  | nil => exact absurd h (by decide)
  | cons c cs =>
      cases cs with
      | nil =>
          simp [show "TAGS:".data = 'T' :: 'A' :: 'G' :: 'S' :: [':'] from rfl,
            List.isPrefixOf] at h
      | cons c2 cs2 =>
          simp only [show "TAGS:".data = 'T' :: 'A' :: 'G' :: 'S' :: [':'] from rfl,
            List.isPrefixOf, Bool.and_eq_true, beq_iff_eq] at h
          obtain ⟨hc, hc2, -⟩ := h
          subst hc
          subst hc2
          refine ⟨?_, ?_⟩ <;>
            simp [show "TITLE:".data = 'T' :: 'I' :: "TLE:".data from rfl,
              show "CONTENT:".data = 'C' :: "ONTENT:".data from rfl,
              List.isPrefixOf,
              (by decide : ('I' == 'A') = false),
              (by decide : ('C' == 'T') = false)]

theorem blogStep_title_of_title (st : BlogParseState) (l : String)
    (h : pyStartsWith l "TITLE:" = true) :
    (blogStep st l).title = extractField "TITLE:" l := by
  unfold blogStep
  rw [if_pos h]

theorem blogStep_tags_of_tags (st : BlogParseState) (l : String)
    (h : pyStartsWith l "TAGS:" = true) :
    (blogStep st l).tags = extractField "TAGS:" l := by
  obtain ⟨h1, h2⟩ := startsWith_tags_elim l h
  unfold blogStep
  rw [if_neg (by simp [h1]), if_neg (by simp [h2]), if_pos h]

theorem foldl_ideaStep_title_isSome (ls : List String) :
    ∀ idea : ContentIdea,
      ((ls.foldl ideaStep idea).title).isSome
        = (idea.title.isSome || ls.any (fun l => pyStartsWith l "Title:")) := by
  induction ls with
  | nil => intro idea; simp
  | cons l ls ih =>
      intro idea
      rw [List.foldl_cons, List.any_cons, ih]
      have hstep : ((ideaStep idea l).title).isSome
          = (idea.title.isSome || pyStartsWith l "Title:") := by
        unfold ideaStep
        split
        · next h => simp [h]
        split
        · next h h2 => simp_all
        split
        · next h h2 h3 => simp_all
        split
        · next h h2 h3 h4 => simp_all
        · next h h2 h3 h4 => simp_all
      rw [hstep, Bool.or_assoc]

theorem parseSegment_isSome (now seg : String) :
    (parseSegment now seg).isSome
      = (pyLines (pyStrip seg)).any (fun l => pyStartsWith l "Title:") := by
  have key := foldl_ideaStep_title_isSome (pyLines (pyStrip seg)) (ideaInit now)
  rw [show (ideaInit now).title.isSome = false from rfl, Bool.false_or] at key
  unfold parseSegment
  rw [← key]
  cases hx : ((pyLines (pyStrip seg)).foldl ideaStep (ideaInit now)).title.isSome <;>
    simp [hx]

/-! ### Claim theorems -/

/-- Claim C1: for every raw reply parsed by `generate_blog_post`, the
returned `word_count` equals the number of whitespace-delimited tokens of
the extracted title, one newline, and the accumulated (untrimmed) body,
concatenated; and that token count is the sum of the title's and the body's
token counts (so the contract covers an empty title or body). -/
theorem blog_word_count_contract (reply topic audience now : String) (w : Nat) :
    (generate_blog_post (Except.ok reply) topic audience w now).word_count
        = some (countWords ((blogParse reply).title ++ "\n" ++ (blogParse reply).body)) ∧
    countWords ((blogParse reply).title ++ "\n" ++ (blogParse reply).body)
        = countWords (blogParse reply).title + countWords (blogParse reply).body :=
  ⟨rfl, countWords_append_newline _ _⟩

/-- Claim C2: a reply in which no line starts with `TITLE:`, `CONTENT:` or
`TAGS:` (the empty reply included) still yields a success record with empty
title, empty content and an empty tags list. -/
theorem blog_no_markers_success (reply topic audience now : String) (w : Nat)
    (h : ∀ l ∈ pyLines reply, pyStartsWith l "TITLE:" = false ∧
      pyStartsWith l "CONTENT:" = false ∧ pyStartsWith l "TAGS:" = false) :
    (generate_blog_post (Except.ok reply) topic audience w now).status = "success" ∧
    (generate_blog_post (Except.ok reply) topic audience w now).title = some "" ∧
    (generate_blog_post (Except.ok reply) topic audience w now).content = some "" ∧
    (generate_blog_post (Except.ok reply) topic audience w now).tags = some [] := by
  have hparse : blogParse reply = blogInit :=
    foldl_eq_of_no_markers (pyLines reply) blogInit h (by decide)
  refine ⟨rfl, ?_, ?_, ?_⟩
  · show some (blogParse reply).title = some ""
    rw [hparse]
    decide
  · show some (pyStrip (blogParse reply).body) = some ""
    rw [hparse]
    decide
  · show some (parseTags (blogParse reply).tags) = some []
    rw [hparse]
    decide

/-- Witness for C2 at a concrete marker-free reply. -/
theorem blog_no_markers_success_case :
    (generate_blog_post (Except.ok "just some unstructured text\nand a second line")
        "topic" "general" 800 "2026-01-01T00:00:00").status = "success" ∧
    (generate_blog_post (Except.ok "just some unstructured text\nand a second line")
        "topic" "general" 800 "2026-01-01T00:00:00").title = some "" ∧
    (generate_blog_post (Except.ok "just some unstructured text\nand a second line")
        "topic" "general" 800 "2026-01-01T00:00:00").content = some "" ∧
    (generate_blog_post (Except.ok "just some unstructured text\nand a second line")
        "topic" "general" 800 "2026-01-01T00:00:00").tags = some [] :=
  blog_no_markers_success "just some unstructured text\nand a second line"
    "topic" "general" "2026-01-01T00:00:00" 800 (by decide)

/-- Claim C3 counterexample: the code extracts a marker line's value with
`line.replace(marker, "").strip()`, which removes every occurrence of the
marker, not just the leading one.  On the line `"TITLE: A TITLE: B"` the
parser stores the title `"A  B"`, not the spec's everything-after-the-marker
value `"A TITLE: B"`. -/
theorem marker_extraction_cex :
    (generate_blog_post (Except.ok "TITLE: A TITLE: B") "t" "g" 800 "ts").title
      ≠ some (specAfterMarker "TITLE:" "TITLE: A TITLE: B") := by
  decide

/-- Claim C3 (amended): the extracted field value is the line with every
occurrence of the marker removed, then trimmed; whenever the marker does not
occur again after the leading occurrence, this coincides with the spec's
rule "everything after the marker, trimmed". -/
theorem marker_extraction_single_occurrence (marker rest : String)
    (hne : marker ≠ "") (hc : listContains marker.data rest.data = false) :
    extractField marker (marker ++ rest) = specAfterMarker marker (marker ++ rest) := by
  have hmd : marker.data ≠ [] := by
    intro hd
    exact hne (String.ext (hd.trans rfl))
  unfold extractField specAfterMarker pyReplace pyStrip
  have hgoal : pyReplaceAux marker.data "".data (marker ++ rest).data.length
      (marker ++ rest).data = (marker ++ rest).data.drop marker.data.length := by
    rw [String.data_append, List.drop_left]
    exact pyReplaceAux_strip_marker marker.data rest.data hmd hc
  rw [hgoal]

/-- Witness for the amended C3 at a concrete single-occurrence line. -/
theorem marker_extraction_single_occurrence_case :
    extractField "TITLE:" ("TITLE:" ++ " My Post")
      = specAfterMarker "TITLE:" ("TITLE:" ++ " My Post") :=
  marker_extraction_single_occurrence "TITLE:" " My Post" (by decide) (by decide)

/-- Claim C4: the tags list is the comma-split of the raw tags string with
each piece trimmed and empty pieces dropped, order preserved; in particular
`"test, blog, post"` yields `["test", "blog", "post"]`. -/
theorem tags_split_trim_drop :
    (∀ s : String,
      parseTags s = ((pySplitOn s ",").map pyStrip).filter (fun t => !(t == ""))) ∧
    parseTags "test, blog, post" = ["test", "blog", "post"] := by
  constructor
  · intro s
    show (pySplitOn s ",").filterMap
        (fun tag => if pyStrip tag = "" then none else some (pyStrip tag))
      = ((pySplitOn s ",").map pyStrip).filter (fun t => !(t == ""))
    induction pySplitOn s "," with
    | nil => rfl
    | cons t l ih =>
        simp only [List.filterMap_cons, List.map_cons, List.filter_cons]
        by_cases h : pyStrip t = ""
        · simp [h, ih]
        · simp [h, ih]
  · decide

/-- Claim C5 counterexample: the code computes
`estimated_tokens = int(word_count * 1.5)`, which truncates; at
`word_count = 1` it passes `max_tokens = 1`, while `round(1 × 1.5) = 2`. -/
theorem blog_max_tokens_round_cex :
    ((blogPostParams 1).max_tokens : ℤ) ≠ round ((1 : ℚ) * (3 / 2)) := by
  have h2 : round ((1 : ℚ) * (3 / 2)) = 2 := by
    rw [round_eq, show (1 : ℚ) * (3 / 2) + 1 / 2 = ((2 : ℤ) : ℚ) by norm_num,
      Int.floor_intCast]
  rw [h2]
  decide

/-- Claim C5 (amended): the maximum output size passed to the external call
equals `⌊word_count × 1.5⌋` (Python `int` truncation of the product), not
the rounded product, and the randomness parameter equals 0.7. -/
theorem blog_call_params (w : Nat) :
    (blogPostParams w).max_tokens = Nat.floor ((w : ℚ) * (3 / 2)) ∧
    (blogPostParams w).temperature = 7 / 10 := by
  constructor
  · rw [show ((w : ℚ) * (3 / 2)) = ((3 * w : ℕ) : ℚ) / ((2 : ℕ) : ℚ) by
        push_cast; ring,
      Nat.floor_div_eq_div]
    rfl
  · rfl

/-- Claim C6: a `---`-delimited segment of the calendar reply contributes a
record exactly when it contains the substrings `IDEA` and `Title:` and some
line of the stripped segment starts with `Title:`; every other segment is
dropped whole. -/
theorem calendar_segment_iff (now seg : String) :
    (segContribution now seg).isSome = true ↔
      (pyContainsSub seg "IDEA" = true ∧ pyContainsSub seg "Title:" = true ∧
        ∃ l ∈ pyLines (pyStrip seg), pyStartsWith l "Title:" = true) := by
  unfold segContribution
  by_cases h : (pyContainsSub seg "IDEA" && pyContainsSub seg "Title:") = true
  · rw [if_pos h]
    rw [Bool.and_eq_true] at h
    rw [parseSegment_isSome, List.any_eq_true]
    constructor
    · intro hx
      exact ⟨h.1, h.2, hx⟩
    · intro hx
      exact hx.2.2
  · rw [if_neg h]
    simp only [Option.isSome_none, Bool.false_eq_true, false_iff]
    intro hx
    exact h (by rw [Bool.and_eq_true]; exact ⟨hx.1, hx.2.1⟩)

/-- Claim C7: on every successful calendar result `total_ideas` is the
length of the ideas sequence, and it is not forced to equal the requested
`num_posts` (the empty reply parses to 0 ideas against a request for 30). -/
theorem calendar_total_ideas_len (niche reply now : String) (num_posts : Nat) :
    ((generate_content_calendar (Except.ok reply) niche num_posts now).ideas
        = some (calendarIdeas now reply) ∧
      (generate_content_calendar (Except.ok reply) niche num_posts now).total_ideas
        = some (calendarIdeas now reply).length) ∧
    ((generate_content_calendar (Except.ok "") "niche" 30 now).total_ideas
        = some 0 ∧ (0 : Nat) ≠ 30) :=
  ⟨⟨rfl, rfl⟩, ⟨rfl, by decide⟩⟩

/-- Claim C8: an exception raised by the external call is converted by both
generator operations into a record with status `"error"`, the exception's
message in the `error` field and the handler's timestamp; the model functions
are total, so nothing propagates. -/
theorem external_error_caught (e topic audience niche now : String) (w np : Nat) :
    (generate_blog_post (Except.error e) topic audience w now).status = "error" ∧
    (generate_blog_post (Except.error e) topic audience w now).error = some e ∧
    (generate_blog_post (Except.error e) topic audience w now).generated_at = now ∧
    (generate_content_calendar (Except.error e) niche np now).status = "error" ∧
    (generate_content_calendar (Except.error e) niche np now).error = some e ∧
    (generate_content_calendar (Except.error e) niche np now).generated_at = now :=
  ⟨rfl, rfl, rfl, rfl, rfl, rfl⟩

/-- Claim C9: both analyzer operations return exactly the trimmed external
reply on success and the plain string `"Error: " ++ message` on failure;
both model functions are total, so no exception reaches the caller. -/
theorem analyzer_trim_and_error_string (reply e : String)
    (feedback_list : List String) :
    analyze_sentiment (Except.ok reply) = pyStrip reply ∧
    analyze_sentiment (Except.error e) = "Error: " ++ e ∧
    identify_key_themes feedback_list (Except.ok reply) = pyStrip reply ∧
    identify_key_themes feedback_list (Except.error e) = "Error: " ++ e :=
  ⟨rfl, rfl, rfl, rfl⟩

/-- Claim C10: repeated `TITLE:` (resp. `TAGS:`) lines overwrite, so the
returned value is the extraction from the last such line; the body
accumulator only ever grows, a `CONTENT:` marker line keeps the body and
re-enters the content section, and a non-blank non-marker line inside the
content section appends itself plus a newline. -/
theorem repeated_markers_semantics :
    (∀ (pre post : List String) (l : String),
        pyStartsWith l "TITLE:" = true →
        (∀ l' ∈ post, pyStartsWith l' "TITLE:" = false) →
        ((pre ++ l :: post).foldl blogStep blogInit).title
          = extractField "TITLE:" l) ∧
    (∀ (pre post : List String) (l : String),
        pyStartsWith l "TAGS:" = true →
        (∀ l' ∈ post, pyStartsWith l' "TAGS:" = false) →
        ((pre ++ l :: post).foldl blogStep blogInit).tags
          = extractField "TAGS:" l) ∧
    (∀ (st : BlogParseState) (ls : List String),
        ∃ t, (ls.foldl blogStep st).body = st.body ++ t) ∧
    (∀ (st : BlogParseState) (l : String),
        pyStartsWith l "CONTENT:" = true →
        (blogStep st l).body = st.body ∧ (blogStep st l).sect = "content") ∧
    (∀ (st : BlogParseState) (l : String),
        st.sect = "content" →
        pyStartsWith l "TITLE:" = false →
        pyStartsWith l "CONTENT:" = false →
        pyStartsWith l "TAGS:" = false →
        pyStrip l ≠ "" →
        (blogStep st l).body = st.body ++ l ++ "\n") := by
  refine ⟨?_, ?_, ?_, ?_, ?_⟩
  · intro pre post l hl hpost
    rw [List.foldl_append, List.foldl_cons, foldl_title_of_no_title post _ hpost,
      blogStep_title_of_title _ l hl]
  · intro pre post l hl hpost
    rw [List.foldl_append, List.foldl_cons, foldl_tags_of_no_tags post _ hpost,
      blogStep_tags_of_tags _ l hl]
  · intro st ls
    exact foldl_body_extends ls st
  · intro st l hl
    have h1 := startsWith_content_not_title l hl
    constructor <;>
      · unfold blogStep
        rw [if_neg (by simp [h1]), if_pos hl]
  · intro st l hs h1 h2 h3 h4
    unfold blogStep
    rw [if_neg (by simp [h1]), if_neg (by simp [h2]), if_neg (by simp [h3]),
      if_pos ⟨hs, h4⟩]

/-- Witness for C10: the last of two `TITLE:` lines wins, the last of two
`TAGS:` lines wins, a `CONTENT:` line keeps the accumulated body, and a
non-blank line in the content section appends itself plus a newline. -/
theorem repeated_markers_semantics_case :
    ((["TITLE: First"] ++ "TITLE: Second" :: ["CONTENT:", "hello world"]).foldl
        blogStep blogInit).title = extractField "TITLE:" "TITLE: Second" ∧
    ((["TAGS: a, b"] ++ "TAGS: c" :: []).foldl blogStep blogInit).tags
        = extractField "TAGS:" "TAGS: c" ∧
    (blogStep { title := "", body := "A\n", tags := "", sect := "tags" }
        "CONTENT:").body = "A\n" ∧
    (blogStep { title := "", body := "A\n", tags := "", sect := "content" }
        "B").body = "A\n" ++ "B" ++ "\n" :=
  ⟨repeated_markers_semantics.1 ["TITLE: First"] ["CONTENT:", "hello world"]
      "TITLE: Second" (by decide) (by decide),
    repeated_markers_semantics.2.1 ["TAGS: a, b"] [] "TAGS: c"
      (by decide) (by decide),
    (repeated_markers_semantics.2.2.2.1
      { title := "", body := "A\n", tags := "", sect := "tags" }
      "CONTENT:" (by decide)).1,
    repeated_markers_semantics.2.2.2.2
      { title := "", body := "A\n", tags := "", sect := "content" }
      "B" rfl (by decide) (by decide) (by decide) (by decide)⟩
